import Mathlib

/-!
Shallow embedding of the pyattck repository's Attck class
(src/pyattck/attck.py): the process-wide class-level dataset cache
slots, the lazy loader Attck.__load_data, the force-update method
Attck.update, the three framework facade properties
(enterprise / preattack / mobile), and the constructor's assignment to
Configuration's attribute dictionary.  Collaborators whose code is not
part of this repository slice (AttckDatasets.get_data, the facade
classes, the relationship-resolution layer described by the design
document) are modelled at their interfaces.
-/

/-- A parsed JSON value as returned by AttckDatasets.get_data, with just
enough structure to express Python truthiness: None is falsy and a dict
is truthy exactly when it is non-empty. -/
inductive PyVal where
  | none
  | dict (entries : List (String × String))
deriving DecidableEq

/-- Python truthiness of a cached value; the guard
`if not Attck.__X` in __load_data tests exactly this. -/
def PyVal.truthy : PyVal → Bool
  | PyVal.none => false
  | PyVal.dict es => !es.isEmpty

/-- The data_type arguments passed to AttckDatasets.get_data by
__load_data (the source spells the PRE-ATT&CK one "preattck"). -/
inductive DataType where
  | enterprise
  | preattck
  | mobile
  | generated_data
  | nist_data
deriving DecidableEq

/-- The exception a failed dataset fetch raises
(design document: DatasetUnavailableError). -/
abbrev DatasetUnavailableError := Unit

/-- Interface of the out-of-scope Dataset Cache collaborator:
AttckDatasets.get_data(data_type, force) either returns a parsed JSON
structure or raises. -/
abbrev GetData := DataType → Bool → Except DatasetUnavailableError PyVal

/-- The class-level (hence process-wide) cache slots declared on Attck
(attck.py lines 136-140).  The double-underscore attribute names are
name-mangled to _Attck__ENTERPRISE_ATTCK_JSON and so on; the fields here
drop the mangling prefix. -/
structure AttckClassState where
  ENTERPRISE_ATTCK_JSON : PyVal
  MOBILE_ATTCK_JSON : PyVal
  PRE_ATTCK_JSON : PyVal
  ENTERPRISE_GENERATED_DATA_JSON : PyVal
  ENTERPRISE_NIST_DATA_JSON : PyVal
deriving DecidableEq

/-- Names of the five cache slots, used to state frame lemmas
uniformly. -/
inductive Slot where
  | enterpriseJson
  | mobileJson
  | preJson
  | generatedJson
  | nistJson
deriving DecidableEq

def getSlot (st : AttckClassState) : Slot → PyVal
  | Slot.enterpriseJson => st.ENTERPRISE_ATTCK_JSON
  | Slot.mobileJson => st.MOBILE_ATTCK_JSON
  | Slot.preJson => st.PRE_ATTCK_JSON
  | Slot.generatedJson => st.ENTERPRISE_GENERATED_DATA_JSON
  | Slot.nistJson => st.ENTERPRISE_NIST_DATA_JSON

def setSlot (st : AttckClassState) : Slot → PyVal → AttckClassState
  | Slot.enterpriseJson, v => { st with ENTERPRISE_ATTCK_JSON := v }
  | Slot.mobileJson, v => { st with MOBILE_ATTCK_JSON := v }
  | Slot.preJson, v => { st with PRE_ATTCK_JSON := v }
  | Slot.generatedJson, v => { st with ENTERPRISE_GENERATED_DATA_JSON := v }
  | Slot.nistJson, v => { st with ENTERPRISE_NIST_DATA_JSON := v }

/-- All slots as initialised at class-definition time: None. -/
def emptyState : AttckClassState :=
  ⟨PyVal.none, PyVal.none, PyVal.none, PyVal.none, PyVal.none⟩

/-- Outcome of running __load_data (or update): the class state after
the call (class attributes assigned before an exception keep their new
values), the ordered sequence of get_data calls made, and the
propagated exception, if any. -/
structure LoadResult where
  state : AttckClassState
  calls : List (DataType × Bool)
  error : Option DatasetUnavailableError
deriving DecidableEq

/-- One `if not Attck.__X: Attck.__X = self.__datasets.get_data(...)`
step of __load_data, sequenced after a previous step that may already
have raised. -/
def fetchIfEmpty (gd : GetData) (force : Bool) (dt : DataType) (sl : Slot)
    (r : LoadResult) : LoadResult :=
  match r.error with
  | some _ => r
  | Option.none =>
      if (getSlot r.state sl).truthy then r
      else
        match gd dt force with
        | Except.ok v => ⟨setSlot r.state sl v, r.calls ++ [(dt, force)], Option.none⟩
        | Except.error e => ⟨r.state, r.calls ++ [(dt, force)], some e⟩

/-- Attck.__load_data(type, force) (attck.py lines 264-287): the
preattack and mobile branches guard a single fetch into their slot; any
other type string takes the enterprise branch, which runs three guarded
fetches in order (enterprise bundle, generated data, NIST data). -/
def load_data (gd : GetData) (ty : String) (force : Bool)
    (st : AttckClassState) : LoadResult :=
  if ty = "preattack" then
    fetchIfEmpty gd force DataType.preattck Slot.preJson ⟨st, [], Option.none⟩
  else if ty = "mobile" then
    fetchIfEmpty gd force DataType.mobile Slot.mobileJson ⟨st, [], Option.none⟩
  else
    fetchIfEmpty gd force DataType.nist_data Slot.nistJson
      (fetchIfEmpty gd force DataType.generated_data Slot.generatedJson
        (fetchIfEmpty gd force DataType.enterprise Slot.enterpriseJson
          ⟨st, [], Option.none⟩))

/-- Sequence a further __load_data call after a possibly-raising earlier
one: an exception aborts the remaining calls of update. -/
def chainLoad (gd : GetData) (ty : String) (force : Bool)
    (r : LoadResult) : LoadResult :=
  match r.error with
  | some _ => r
  | Option.none =>
      ⟨(load_data gd ty force r.state).state,
       r.calls ++ (load_data gd ty force r.state).calls,
       (load_data gd ty force r.state).error⟩

/-- Attck.update(enterprise, preattack, mobile) (attck.py lines
252-262): conditionally re-runs __load_data with force=True, in the
source order preattack, mobile, enterprise. -/
def update (gd : GetData) (enterprise preattack mobile : Bool)
    (st : AttckClassState) : LoadResult :=
  let r0 : LoadResult := ⟨st, [], Option.none⟩
  let r1 := if preattack then chainLoad gd "preattack" true r0 else r0
  let r2 := if mobile then chainLoad gd "mobile" true r1 else r1
  if enterprise then chainLoad gd "enterprise" true r2 else r2

/-- Per-instance state of an Attck object: of the attributes set by
__init__, only the captured __nested_subtechniques flag matters to the
claims (the per-instance AttckDatasets wrapper is represented by the
GetData argument passed to each operation). -/
structure AttckInstance where
  nested_subtechniques : Bool
deriving DecidableEq

/-- Modelled from the spec: the Enterprise facade class is outside this
repository slice; per the design document's snapshot-isolation scenario
a facade holds the raw dataset value passed to its constructor.  The
oid field models Python object identity: every constructor call yields
an object with a fresh identity. -/
structure Enterprise where
  oid : Nat
  attck_json : PyVal
  nested_subtechniques : Bool
deriving DecidableEq

/-- Modelled from the spec: the PreAttck facade class, holding the raw
dataset value passed to its constructor (attck.py passes only the
cached PRE-ATT&CK bundle). -/
structure PreAttck where
  oid : Nat
  preattck_json : PyVal
deriving DecidableEq

/-- Modelled from the spec: the MobileAttck facade class, holding the
raw dataset value passed to its constructor. -/
structure MobileAttck where
  oid : Nat
  mobile_json : PyVal
deriving DecidableEq

/-- Process state threaded through property accesses: the shared
class-level cache slots plus an allocator for fresh Python object
identities. -/
structure PyState where
  cls : AttckClassState
  nextOid : Nat
deriving DecidableEq

/-- Outcome of reading a framework property: the process state
afterwards, the get_data calls made, the facade returned (none when the
load raised) and the propagated exception, if any. -/
structure PropResult (Facade : Type) where
  state : PyState
  calls : List (DataType × Bool)
  facade : Option Facade
  error : Option DatasetUnavailableError
deriving DecidableEq

/-- The Attck.enterprise property (attck.py lines 215-226): run
__load_data() and then construct a fresh Enterprise facade from the
cached bundle and the instance's nested_subtechniques flag. -/
def enterpriseProp (gd : GetData) (self : AttckInstance)
    (ps : PyState) : PropResult Enterprise :=
  match load_data gd "enterprise" false ps.cls with
  | ⟨st', cs, some e⟩ => ⟨⟨st', ps.nextOid⟩, cs, Option.none, some e⟩
  | ⟨st', cs, Option.none⟩ =>
      ⟨⟨st', ps.nextOid + 1⟩, cs,
       some ⟨ps.nextOid, st'.ENTERPRISE_ATTCK_JSON, self.nested_subtechniques⟩,
       Option.none⟩

/-- The Attck.preattack property (attck.py lines 228-238): run
__load_data(type='preattack') and construct a fresh PreAttck facade
from the cached bundle only (the nested_subtechniques flag is not
passed). -/
def preattackProp (gd : GetData) (self : AttckInstance)
    (ps : PyState) : PropResult PreAttck :=
  match load_data gd "preattack" false ps.cls with
  | ⟨st', cs, some e⟩ => ⟨⟨st', ps.nextOid⟩, cs, Option.none, some e⟩
  | ⟨st', cs, Option.none⟩ =>
      ⟨⟨st', ps.nextOid + 1⟩, cs,
       some ⟨ps.nextOid, st'.PRE_ATTCK_JSON⟩, Option.none⟩

/-- The Attck.mobile property (attck.py lines 240-250): run
__load_data(type='mobile') and construct a fresh MobileAttck facade
from the cached bundle only. -/
def mobileProp (gd : GetData) (self : AttckInstance)
    (ps : PyState) : PropResult MobileAttck :=
  match load_data gd "mobile" false ps.cls with
  | ⟨st', cs, some e⟩ => ⟨⟨st', ps.nextOid⟩, cs, Option.none, some e⟩
  | ⟨st', cs, Option.none⟩ =>
      ⟨⟨st', ps.nextOid + 1⟩, cs,
       some ⟨ps.nextOid, st'.MOBILE_ATTCK_JSON⟩, Option.none⟩

/-- The attribute dictionary of the Configuration class (only
string-valued attributes are needed by the claims). -/
abbrev AttrMap := List (String × String)

/-- Class-attribute assignment: overwrite the binding if the name is
bound, otherwise add it. -/
def setAttr : AttrMap → String → String → AttrMap
  | [], k, v => [(k, v)]
  | (k', v') :: rest, k, v =>
      if k' = k then (k, v) :: rest else (k', v') :: setAttr rest k v

def getAttr : AttrMap → String → Option String
  | [], _ => Option.none
  | (k', v') :: rest, k => if k' = k then some v' else getAttr rest k

/-- Python private-name mangling: an identifier with two leading
underscores and at most one trailing underscore, occurring textually in
a class body, is rewritten to an underscore, the class name stripped of
its leading underscores, then the identifier.  (The degenerate case of
a class name consisting only of underscores does not arise here.) -/
def mangle (cls nm : String) : String :=
  if "__".data.isPrefixOf nm.data && !("__".data.isSuffixOf nm.data) then
    "_" ++ String.mk (cls.data.dropWhile (fun c => c = '_')) ++ nm
  else nm

/-- Python truthiness of the config_file_path argument: None and the
empty string are falsy. -/
def strOptTruthy : Option String → Bool
  | Option.none => false
  | some s => !s.data.isEmpty

/-- Outcome of Attck.__init__: the constructed instance and the
Configuration class's attribute dictionary afterwards. -/
structure InitResult where
  inst : AttckInstance
  configAttrs : AttrMap
deriving DecidableEq

/-- Attck.__init__ (attck.py lines 148-213) restricted to the state the
claims are about: it captures nested_subtechniques on the instance and,
when config_file_path is truthy, runs
Configuration.__CONFIG_FILE = config_file_path — an assignment whose
attribute name is mangled in Attck's class scope.  The calls to
Configuration().set and AttckDatasets() touch only out-of-scope
collaborator state. -/
def attckInit (nested_subtechniques : Bool) (config_file_path : Option String)
    (attrs : AttrMap) : InitResult :=
  ⟨⟨nested_subtechniques⟩,
   if strOptTruthy config_file_path then
     setAttr attrs (mangle "Attck" "__CONFIG_FILE")
       (match config_file_path with
        | some p => p
        | Option.none => "")
   else attrs⟩

/-- Modelled from the spec: a STIX relationship record (design document
section 3), as consumed by the relationship-resolution layer, whose
code is outside this repository slice. -/
structure Relationship where
  source_ref : String
  target_ref : String
  relationship_type : String
deriving DecidableEq

/-- Modelled from the spec: a bundle object is either an entity record
(declared type and STIX id) or a relationship record. -/
inductive BundleObject where
  | entity (typ : String) (id : String)
  | rel (source_ref : String) (target_ref : String) (relationship_type : String)
deriving DecidableEq

/-- Modelled from the spec: the Bundle Index (design document 4.1) —
the entity partition in bundle order and the retained relationship
records. -/
structure Index where
  entities : List (String × String)
  rels : List Relationship
deriving DecidableEq

/-- Does the entity partition contain an entity with this STIX id? -/
def entityIds (es : List (String × String)) (i : String) : Bool :=
  es.any (fun e => e.2 = i)

def bundleEntities (bundle : List BundleObject) : List (String × String) :=
  bundle.filterMap (fun o =>
    match o with
    | BundleObject.entity t i => some (t, i)
    | BundleObject.rel _ _ _ => Option.none)

def bundleRels (bundle : List BundleObject) : List Relationship :=
  bundle.filterMap (fun o =>
    match o with
    | BundleObject.entity _ _ => Option.none
    | BundleObject.rel s t rt => some ⟨s, t, rt⟩)

/-- Modelled from the spec: building the Bundle Index (design document
4.1); a relationship referencing a STIX id absent from the entity map
is skipped rather than aborting the build. -/
def buildIndex (bundle : List BundleObject) : Index :=
  ⟨bundleEntities bundle,
   (bundleRels bundle).filter (fun r =>
     entityIds (bundleEntities bundle) r.source_ref
       && entityIds (bundleEntities bundle) r.target_ref)⟩

/-- Direction of a relationship lookup (design document 4.2 table). -/
inductive Direction where
  | sourceToTarget
  | targetToSource
deriving DecidableEq

/-- The end of the edge the queried entity must occupy. -/
def edgeEnd : Direction → Relationship → String
  | Direction.sourceToTarget, r => r.source_ref
  | Direction.targetToSource, r => r.target_ref

/-- The opposite end of the edge, yielding the related entity. -/
def oppositeId : Direction → Relationship → String
  | Direction.sourceToTarget, r => r.target_ref
  | Direction.targetToSource, r => r.source_ref

def dedupAux : List String → List String → List String
  | [], _ => []
  | x :: xs, seen =>
      if seen.contains x then dedupAux xs seen
      else x :: dedupAux xs (x :: seen)

/-- Deduplicate, keeping the first occurrence of each id. -/
def dedupFirst (l : List String) : List String := dedupAux l []

/-- Modelled from the spec: the Relationship Resolver (design document
4.3): select the edges whose queried end matches the entity id, filter
by relationship type, map to the opposite end, keep only ids present in
the target-type partition, deduplicate preserving first-seen order. -/
def resolve (idx : Index) (entity_id : String) (target_type : String)
    (relationship_type : String) (dir : Direction) : List String :=
  dedupFirst
    ((((idx.rels.filter (fun r => edgeEnd dir r = entity_id)).filter
        (fun r => r.relationship_type = relationship_type)).map
          (oppositeId dir)).filter
      (fun i => (idx.entities.filter (fun e => e.1 = target_type)).any
        (fun e => e.2 = i)))

/-- A non-empty (truthy) sample bundle value. -/
def bundleA : PyVal := PyVal.dict [("objects", "A")]

/-- A second, distinct truthy sample bundle value. -/
def bundleB : PyVal := PyVal.dict [("objects", "B")]

/-- State in which every slot holds a truthy bundle. -/
def fullState : AttckClassState := ⟨bundleA, bundleA, bundleA, bundleA, bundleA⟩

/-- State in which every slot holds the second bundle. -/
def fullStateB : AttckClassState := ⟨bundleB, bundleB, bundleB, bundleB, bundleB⟩

/-- State in which only the PRE-ATT&CK slot is loaded. -/
def mixedState : AttckClassState :=
  ⟨PyVal.none, PyVal.none, bundleA, PyVal.none, PyVal.none⟩

/-- State in which the enterprise-related slots are loaded but the
PRE-ATT&CK and mobile slots are not. -/
def entOnlyState : AttckClassState :=
  ⟨bundleA, PyVal.none, PyVal.none, bundleA, bundleA⟩

/-- A Dataset Cache that always returns the first sample bundle. -/
def cGet : GetData := fun _ _ => Except.ok bundleA

/-- A Dataset Cache that always returns the second sample bundle. -/
def cGetB : GetData := fun _ _ => Except.ok bundleB

/-- A Dataset Cache that always raises DatasetUnavailableError. -/
def cGetFail : GetData := fun _ _ => Except.error ()

/-- A Dataset Cache that always returns an empty (falsy) structure. -/
def cGetEmpty : GetData := fun _ _ => Except.ok (PyVal.dict [])

/-- A tiny sample bundle: a technique, a mitigation, and a mitigates
relationship between them. -/
def demoBundle : List BundleObject :=
  [BundleObject.entity "attack-pattern" "attack-pattern--t1059",
   BundleObject.entity "course-of-action" "course-of-action--m1038",
   BundleObject.rel "course-of-action--m1038" "attack-pattern--t1059" "mitigates"]

lemma getSlot_setSlot_ne (st : AttckClassState) (sl sl' : Slot) (v : PyVal)
    (h : sl' ≠ sl) : getSlot (setSlot st sl v) sl' = getSlot st sl' := by
  cases sl <;> cases sl' <;> simp_all [getSlot, setSlot]

lemma fetchIfEmpty_err (gd : GetData) (force : Bool) (dt : DataType) (sl : Slot)
    (st : AttckClassState) (cs : List (DataType × Bool)) (e : DatasetUnavailableError) :
    fetchIfEmpty gd force dt sl ⟨st, cs, some e⟩ = ⟨st, cs, some e⟩ := rfl

lemma fetchIfEmpty_skip (gd : GetData) (force : Bool) (dt : DataType) (sl : Slot)
    (st : AttckClassState) (cs : List (DataType × Bool))
    (h : (getSlot st sl).truthy = true) :
    fetchIfEmpty gd force dt sl ⟨st, cs, Option.none⟩ = ⟨st, cs, Option.none⟩ := by
  simp [fetchIfEmpty, h]

lemma fetchIfEmpty_fetch_ok (gd : GetData) (force : Bool) (dt : DataType) (sl : Slot)
    (st : AttckClassState) (cs : List (DataType × Bool)) (v : PyVal)
    (h : (getSlot st sl).truthy = false) (hg : gd dt force = Except.ok v) :
    fetchIfEmpty gd force dt sl ⟨st, cs, Option.none⟩
      = ⟨setSlot st sl v, cs ++ [(dt, force)], Option.none⟩ := by
  simp [fetchIfEmpty, h, hg]

lemma fetchIfEmpty_fetch_err (gd : GetData) (force : Bool) (dt : DataType) (sl : Slot)
    (st : AttckClassState) (cs : List (DataType × Bool)) (e : DatasetUnavailableError)
    (h : (getSlot st sl).truthy = false) (hg : gd dt force = Except.error e) :
    fetchIfEmpty gd force dt sl ⟨st, cs, Option.none⟩
      = ⟨st, cs ++ [(dt, force)], some e⟩ := by
  simp [fetchIfEmpty, h, hg]

lemma load_data_pre_eq (gd : GetData) (force : Bool) (st : AttckClassState) :
    load_data gd "preattack" force st
      = fetchIfEmpty gd force DataType.preattck Slot.preJson ⟨st, [], Option.none⟩ := rfl

lemma load_data_mobile_eq (gd : GetData) (force : Bool) (st : AttckClassState) :
    load_data gd "mobile" force st
      = fetchIfEmpty gd force DataType.mobile Slot.mobileJson ⟨st, [], Option.none⟩ := rfl

lemma load_data_ent_eq (gd : GetData) (force : Bool) (st : AttckClassState) :
    load_data gd "enterprise" force st
      = fetchIfEmpty gd force DataType.nist_data Slot.nistJson
          (fetchIfEmpty gd force DataType.generated_data Slot.generatedJson
            (fetchIfEmpty gd force DataType.enterprise Slot.enterpriseJson
              ⟨st, [], Option.none⟩)) := rfl

lemma fetchIfEmpty_truthy_frame (gd : GetData) (force : Bool) (dt : DataType)
    (sl sl' : Slot) (r : LoadResult) (h : (getSlot r.state sl').truthy = true) :
    getSlot (fetchIfEmpty gd force dt sl r).state sl' = getSlot r.state sl' := by
  rcases r with ⟨st, cs, err⟩
  cases err with
  | some e => rfl
  | none =>
      simp only [fetchIfEmpty]
      by_cases ht : (getSlot st sl).truthy = true
      · simp [ht]
      · simp only [ht, Bool.false_eq_true, if_false]
        cases hg : gd dt force with
        | ok v =>
            have hne : sl' ≠ sl := by
              intro he
              rw [he] at h
              exact absurd h ht
            simp [getSlot_setSlot_ne st sl sl' v hne]
        | error e => rfl

lemma fetchIfEmpty_other_frame (gd : GetData) (force : Bool) (dt : DataType)
    (sl sl' : Slot) (r : LoadResult) (h : sl' ≠ sl) :
    getSlot (fetchIfEmpty gd force dt sl r).state sl' = getSlot r.state sl' := by
  rcases r with ⟨st, cs, err⟩
  cases err with
  | some e => rfl
  | none =>
      simp only [fetchIfEmpty]
      by_cases ht : (getSlot st sl).truthy = true
      · simp [ht]
      · simp only [ht, Bool.false_eq_true, if_false]
        cases hg : gd dt force with
        | ok v => simp [getSlot_setSlot_ne st sl sl' v h]
        | error e => rfl

lemma load_data_truthy_frame (gd : GetData) (ty : String) (force : Bool)
    (st : AttckClassState) (sl : Slot) (h : (getSlot st sl).truthy = true) :
    getSlot (load_data gd ty force st).state sl = getSlot st sl := by
  have step : ∀ (dt : DataType) (sl0 : Slot) (r : LoadResult),
      (getSlot r.state sl).truthy = true →
      (getSlot (fetchIfEmpty gd force dt sl0 r).state sl).truthy = true ∧
        getSlot (fetchIfEmpty gd force dt sl0 r).state sl = getSlot r.state sl := by
    intro dt sl0 r hr
    have hq := fetchIfEmpty_truthy_frame gd force dt sl0 sl r hr
    exact ⟨by rw [hq]; exact hr, hq⟩
  unfold load_data
  split
  · exact (step _ _ _ h).2
  · split
    · exact (step _ _ _ h).2
    · have s1 := step DataType.enterprise Slot.enterpriseJson ⟨st, [], Option.none⟩ h
      have s2 := step DataType.generated_data Slot.generatedJson _ s1.1
      have s3 := step DataType.nist_data Slot.nistJson _ s2.1
      rw [s3.2, s2.2, s1.2]

lemma chainLoad_truthy_frame (gd : GetData) (ty : String) (force : Bool)
    (r : LoadResult) (sl : Slot) (h : (getSlot r.state sl).truthy = true) :
    (getSlot (chainLoad gd ty force r).state sl).truthy = true ∧
      getSlot (chainLoad gd ty force r).state sl = getSlot r.state sl := by
  rcases r with ⟨st, cs, err⟩
  cases err with
  | some e => exact ⟨h, rfl⟩
  | none =>
      simp only [chainLoad]
      have hq := load_data_truthy_frame gd ty force st sl h
      exact ⟨by rw [hq]; exact h, hq⟩

lemma update_truthy_frame (gd : GetData) (e p m : Bool) (st : AttckClassState)
    (sl : Slot) (h : (getSlot st sl).truthy = true) :
    getSlot (update gd e p m st).state sl = getSlot st sl := by
  have cond : ∀ (b : Bool) (ty : String) (r : LoadResult),
      (getSlot r.state sl).truthy = true →
      (getSlot (if b then chainLoad gd ty true r else r).state sl).truthy = true ∧
        getSlot (if b then chainLoad gd ty true r else r).state sl = getSlot r.state sl := by
    intro b ty r hr
    cases b
    · simp only [Bool.false_eq_true, if_false]
      exact ⟨hr, trivial⟩
    · simpa using chainLoad_truthy_frame gd ty true r sl hr
  simp only [update]
  have c1 := cond p "preattack" ⟨st, [], Option.none⟩ h
  have c2 := cond m "mobile" _ c1.1
  have c3 := cond e "enterprise" _ c2.1
  rw [c3.2, c2.2, c1.2]

lemma load_data_preattack_cached (gd : GetData) (force : Bool) (st : AttckClassState)
    (h : st.PRE_ATTCK_JSON.truthy = true) :
    load_data gd "preattack" force st = ⟨st, [], Option.none⟩ := by
  rw [load_data_pre_eq]
  exact fetchIfEmpty_skip gd force DataType.preattck Slot.preJson st [] h

lemma load_data_mobile_cached (gd : GetData) (force : Bool) (st : AttckClassState)
    (h : st.MOBILE_ATTCK_JSON.truthy = true) :
    load_data gd "mobile" force st = ⟨st, [], Option.none⟩ := by
  rw [load_data_mobile_eq]
  exact fetchIfEmpty_skip gd force DataType.mobile Slot.mobileJson st [] h

lemma load_data_enterprise_cached (gd : GetData) (force : Bool) (st : AttckClassState)
    (hE : st.ENTERPRISE_ATTCK_JSON.truthy = true)
    (hG : st.ENTERPRISE_GENERATED_DATA_JSON.truthy = true)
    (hN : st.ENTERPRISE_NIST_DATA_JSON.truthy = true) :
    load_data gd "enterprise" force st = ⟨st, [], Option.none⟩ := by
  rw [load_data_ent_eq,
      fetchIfEmpty_skip gd force DataType.enterprise Slot.enterpriseJson st [] hE,
      fetchIfEmpty_skip gd force DataType.generated_data Slot.generatedJson st [] hG,
      fetchIfEmpty_skip gd force DataType.nist_data Slot.nistJson st [] hN]

lemma enterpriseProp_cached (gd : GetData) (self : AttckInstance) (ps : PyState)
    (hE : ps.cls.ENTERPRISE_ATTCK_JSON.truthy = true)
    (hG : ps.cls.ENTERPRISE_GENERATED_DATA_JSON.truthy = true)
    (hN : ps.cls.ENTERPRISE_NIST_DATA_JSON.truthy = true) :
    enterpriseProp gd self ps
      = ⟨⟨ps.cls, ps.nextOid + 1⟩, [],
         some ⟨ps.nextOid, ps.cls.ENTERPRISE_ATTCK_JSON, self.nested_subtechniques⟩,
         Option.none⟩ := by
  unfold enterpriseProp
  rw [load_data_enterprise_cached gd false ps.cls hE hG hN]

lemma preattackProp_cached (gd : GetData) (self : AttckInstance) (ps : PyState)
    (hP : ps.cls.PRE_ATTCK_JSON.truthy = true) :
    preattackProp gd self ps
      = ⟨⟨ps.cls, ps.nextOid + 1⟩, [],
         some ⟨ps.nextOid, ps.cls.PRE_ATTCK_JSON⟩, Option.none⟩ := by
  unfold preattackProp
  rw [load_data_preattack_cached gd false ps.cls hP]

lemma mobileProp_cached (gd : GetData) (self : AttckInstance) (ps : PyState)
    (hM : ps.cls.MOBILE_ATTCK_JSON.truthy = true) :
    mobileProp gd self ps
      = ⟨⟨ps.cls, ps.nextOid + 1⟩, [],
         some ⟨ps.nextOid, ps.cls.MOBILE_ATTCK_JSON⟩, Option.none⟩ := by
  unfold mobileProp
  rw [load_data_mobile_cached gd false ps.cls hM]

lemma load_data_preattack_first (gd : GetData) (st : AttckClassState) (vp : PyVal)
    (h : st.PRE_ATTCK_JSON.truthy = false)
    (hp : gd DataType.preattck false = Except.ok vp) :
    load_data gd "preattack" false st
      = ⟨{ st with PRE_ATTCK_JSON := vp }, [(DataType.preattck, false)], Option.none⟩ := by
  have hs : (getSlot st Slot.preJson).truthy = false := h
  rw [load_data_pre_eq,
      fetchIfEmpty_fetch_ok gd false DataType.preattck Slot.preJson st [] vp hs hp]
  rfl

lemma load_data_mobile_first (gd : GetData) (st : AttckClassState) (vm : PyVal)
    (h : st.MOBILE_ATTCK_JSON.truthy = false)
    (hm : gd DataType.mobile false = Except.ok vm) :
    load_data gd "mobile" false st
      = ⟨{ st with MOBILE_ATTCK_JSON := vm }, [(DataType.mobile, false)], Option.none⟩ := by
  have hs : (getSlot st Slot.mobileJson).truthy = false := h
  rw [load_data_mobile_eq,
      fetchIfEmpty_fetch_ok gd false DataType.mobile Slot.mobileJson st [] vm hs hm]
  rfl

lemma load_data_enterprise_first (gd : GetData) (ve vg vn : PyVal)
    (he : gd DataType.enterprise false = Except.ok ve)
    (hg : gd DataType.generated_data false = Except.ok vg)
    (hn : gd DataType.nist_data false = Except.ok vn) :
    load_data gd "enterprise" false emptyState
      = ⟨⟨ve, PyVal.none, PyVal.none, vg, vn⟩,
         [(DataType.enterprise, false), (DataType.generated_data, false),
          (DataType.nist_data, false)],
         Option.none⟩ := by
  simp [load_data_ent_eq, fetchIfEmpty, getSlot, setSlot, emptyState, PyVal.truthy,
        he, hg, hn]

lemma load_data_enterprise_refetch (gd : GetData) (st : AttckClassState) (v : PyVal)
    (hE : st.ENTERPRISE_ATTCK_JSON.truthy = false)
    (hG : st.ENTERPRISE_GENERATED_DATA_JSON.truthy = true)
    (hN : st.ENTERPRISE_NIST_DATA_JSON.truthy = true)
    (he : gd DataType.enterprise false = Except.ok v) :
    load_data gd "enterprise" false st
      = ⟨{ st with ENTERPRISE_ATTCK_JSON := v }, [(DataType.enterprise, false)],
         Option.none⟩ := by
  have h1 : (getSlot st Slot.enterpriseJson).truthy = false := hE
  have h2 : (getSlot (setSlot st Slot.enterpriseJson v) Slot.generatedJson).truthy = true := hG
  have h3 : (getSlot (setSlot st Slot.enterpriseJson v) Slot.nistJson).truthy = true := hN
  rw [load_data_ent_eq,
      fetchIfEmpty_fetch_ok gd false DataType.enterprise Slot.enterpriseJson st [] v h1 he,
      fetchIfEmpty_skip gd false DataType.generated_data Slot.generatedJson _ _ h2,
      fetchIfEmpty_skip gd false DataType.nist_data Slot.nistJson _ _ h3]
  rfl

lemma fetchIfEmpty_calls_fetch (gd : GetData) (force : Bool) (dt : DataType) (sl : Slot)
    (st : AttckClassState) (cs : List (DataType × Bool))
    (h : (getSlot st sl).truthy = false) :
    (fetchIfEmpty gd force dt sl ⟨st, cs, Option.none⟩).calls = cs ++ [(dt, force)] := by
  cases hg : gd dt force with
  | ok v => rw [fetchIfEmpty_fetch_ok gd force dt sl st cs v h hg]
  | error e => rw [fetchIfEmpty_fetch_err gd force dt sl st cs e h hg]

lemma load_data_preattack_calls (gd : GetData) (force : Bool) (st : AttckClassState)
    (h : st.PRE_ATTCK_JSON.truthy = false) :
    (load_data gd "preattack" force st).calls = [(DataType.preattck, force)] := by
  rw [load_data_pre_eq]
  exact fetchIfEmpty_calls_fetch gd force DataType.preattck Slot.preJson st [] h

lemma load_data_mobile_calls (gd : GetData) (force : Bool) (st : AttckClassState)
    (h : st.MOBILE_ATTCK_JSON.truthy = false) :
    (load_data gd "mobile" force st).calls = [(DataType.mobile, force)] := by
  rw [load_data_mobile_eq]
  exact fetchIfEmpty_calls_fetch gd force DataType.mobile Slot.mobileJson st [] h

lemma load_data_enterprise_calls (gd : GetData) (force : Bool) (st : AttckClassState)
    (hE : st.ENTERPRISE_ATTCK_JSON.truthy = false)
    (hG : st.ENTERPRISE_GENERATED_DATA_JSON.truthy = true)
    (hN : st.ENTERPRISE_NIST_DATA_JSON.truthy = true) :
    (load_data gd "enterprise" force st).calls = [(DataType.enterprise, force)] := by
  have h1 : (getSlot st Slot.enterpriseJson).truthy = false := hE
  rw [load_data_ent_eq]
  cases hg : gd DataType.enterprise force with
  | ok v =>
      have h2 : (getSlot (setSlot st Slot.enterpriseJson v) Slot.generatedJson).truthy = true := hG
      have h3 : (getSlot (setSlot st Slot.enterpriseJson v) Slot.nistJson).truthy = true := hN
      rw [fetchIfEmpty_fetch_ok gd force DataType.enterprise Slot.enterpriseJson st [] v h1 hg,
          fetchIfEmpty_skip gd force DataType.generated_data Slot.generatedJson _ _ h2,
          fetchIfEmpty_skip gd force DataType.nist_data Slot.nistJson _ _ h3]
      rfl
  | error e =>
      rw [fetchIfEmpty_fetch_err gd force DataType.enterprise Slot.enterpriseJson st [] e h1 hg,
          fetchIfEmpty_err, fetchIfEmpty_err]
      rfl

lemma enterpriseProp_first (gd : GetData) (self : AttckInstance) (n : Nat) (ve vg vn : PyVal)
    (he : gd DataType.enterprise false = Except.ok ve)
    (hg : gd DataType.generated_data false = Except.ok vg)
    (hn : gd DataType.nist_data false = Except.ok vn) :
    enterpriseProp gd self ⟨emptyState, n⟩
      = ⟨⟨⟨ve, PyVal.none, PyVal.none, vg, vn⟩, n + 1⟩,
         [(DataType.enterprise, false), (DataType.generated_data, false),
          (DataType.nist_data, false)],
         some ⟨n, ve, self.nested_subtechniques⟩, Option.none⟩ := by
  unfold enterpriseProp
  rw [load_data_enterprise_first gd ve vg vn he hg hn]

lemma preattackProp_first (gd : GetData) (self : AttckInstance) (n : Nat) (vp : PyVal)
    (hp : gd DataType.preattck false = Except.ok vp) :
    preattackProp gd self ⟨emptyState, n⟩
      = ⟨⟨⟨PyVal.none, PyVal.none, vp, PyVal.none, PyVal.none⟩, n + 1⟩,
         [(DataType.preattck, false)], some ⟨n, vp⟩, Option.none⟩ := by
  unfold preattackProp
  rw [load_data_preattack_first gd emptyState vp rfl hp]
  rfl

lemma mobileProp_first (gd : GetData) (self : AttckInstance) (n : Nat) (vm : PyVal)
    (hm : gd DataType.mobile false = Except.ok vm) :
    mobileProp gd self ⟨emptyState, n⟩
      = ⟨⟨⟨PyVal.none, vm, PyVal.none, PyVal.none, PyVal.none⟩, n + 1⟩,
         [(DataType.mobile, false)], some ⟨n, vm⟩, Option.none⟩ := by
  unfold mobileProp
  rw [load_data_mobile_first gd emptyState vm rfl hm]
  rfl

/-- C1: the claim says that when a framework's dataset is already cached
process-wide, update with that framework's flag True re-invokes get_data
with force=True and overwrites the cached slot.  The code does the
opposite: the `if not Attck.__X` guards in __load_data skip the fetch
whenever the slot is truthy, so update on a fully cached state makes no
get_data call at all and leaves every slot unchanged — for any Dataset
Cache behaviour gd.  This contradicts update's own docstring ("will
force update / sync all datasets from external sources"). -/
theorem C1_update_skips_refetch_when_cached (gd : GetData) :
    update gd true true true fullState = ⟨fullState, [], Option.none⟩ := rfl

/-- C2: for each framework the raw dataset is fetched lazily on the
first property access and stored in the process-wide class-level slot
(witnessed by the recorded get_data call and the updated slot), and any
later access of the property — on any instance, with any Dataset Cache —
makes no get_data call, leaves the slots unchanged, and serves the
facade from the cached (truthy) data. -/
theorem C2_lazy_process_wide_cache (gd : GetData) (self : AttckInstance) (n : Nat)
    (ve vg vn vp vm : PyVal)
    (he : gd DataType.enterprise false = Except.ok ve)
    (hg : gd DataType.generated_data false = Except.ok vg)
    (hn : gd DataType.nist_data false = Except.ok vn)
    (hp : gd DataType.preattck false = Except.ok vp)
    (hm : gd DataType.mobile false = Except.ok vm) :
    ((preattackProp gd self ⟨emptyState, n⟩).calls = [(DataType.preattck, false)]
      ∧ (preattackProp gd self ⟨emptyState, n⟩).state.cls.PRE_ATTCK_JSON = vp)
    ∧ ((mobileProp gd self ⟨emptyState, n⟩).calls = [(DataType.mobile, false)]
      ∧ (mobileProp gd self ⟨emptyState, n⟩).state.cls.MOBILE_ATTCK_JSON = vm)
    ∧ ((enterpriseProp gd self ⟨emptyState, n⟩).calls
          = [(DataType.enterprise, false), (DataType.generated_data, false),
             (DataType.nist_data, false)]
      ∧ (enterpriseProp gd self ⟨emptyState, n⟩).state.cls.ENTERPRISE_ATTCK_JSON = ve)
    ∧ (∀ (gd' : GetData) (self' : AttckInstance) (ps : PyState),
        ps.cls.PRE_ATTCK_JSON.truthy = true →
          (preattackProp gd' self' ps).calls = []
          ∧ (preattackProp gd' self' ps).state.cls = ps.cls
          ∧ (preattackProp gd' self' ps).facade = some ⟨ps.nextOid, ps.cls.PRE_ATTCK_JSON⟩)
    ∧ (∀ (gd' : GetData) (self' : AttckInstance) (ps : PyState),
        ps.cls.MOBILE_ATTCK_JSON.truthy = true →
          (mobileProp gd' self' ps).calls = []
          ∧ (mobileProp gd' self' ps).state.cls = ps.cls
          ∧ (mobileProp gd' self' ps).facade = some ⟨ps.nextOid, ps.cls.MOBILE_ATTCK_JSON⟩)
    ∧ (∀ (gd' : GetData) (self' : AttckInstance) (ps : PyState),
        ps.cls.ENTERPRISE_ATTCK_JSON.truthy = true →
        ps.cls.ENTERPRISE_GENERATED_DATA_JSON.truthy = true →
        ps.cls.ENTERPRISE_NIST_DATA_JSON.truthy = true →
          (enterpriseProp gd' self' ps).calls = []
          ∧ (enterpriseProp gd' self' ps).state.cls = ps.cls) := by
  refine ⟨?_, ?_, ?_, ?_, ?_, ?_⟩
  · rw [preattackProp_first gd self n vp hp]
    exact ⟨rfl, rfl⟩
  · rw [mobileProp_first gd self n vm hm]
    exact ⟨rfl, rfl⟩
  · rw [enterpriseProp_first gd self n ve vg vn he hg hn]
    exact ⟨rfl, rfl⟩
  · intro gd' self' ps hP
    rw [preattackProp_cached gd' self' ps hP]
    exact ⟨rfl, rfl, rfl⟩
  · intro gd' self' ps hM
    rw [mobileProp_cached gd' self' ps hM]
    exact ⟨rfl, rfl, rfl⟩
  · intro gd' self' ps hE hG hN
    rw [enterpriseProp_cached gd' self' ps hE hG hN]
    exact ⟨rfl, rfl⟩

/-- Witness for C2 at a concrete Dataset Cache and concrete states. -/
theorem C2_lazy_process_wide_cache_witness :
    (preattackProp cGet ⟨true⟩ ⟨emptyState, 0⟩).calls = [(DataType.preattck, false)]
    ∧ (preattackProp cGetB ⟨false⟩ ⟨fullState, 5⟩).calls = []
    ∧ (enterpriseProp cGetB ⟨true⟩ ⟨fullState, 5⟩).calls = [] := by
  have h := C2_lazy_process_wide_cache cGet ⟨true⟩ 0 bundleA bundleA bundleA bundleA bundleA
    rfl rfl rfl rfl rfl
  exact ⟨h.1.1, (h.2.2.2.1 cGetB ⟨false⟩ ⟨fullState, 5⟩ rfl).1,
         (h.2.2.2.2.2 cGetB ⟨true⟩ ⟨fullState, 5⟩ rfl rfl rfl).1⟩

/-- C6: accessing the enterprise property from a cold cache fetches the
Enterprise bundle and, in addition, the generated dataset and the NIST
data, in that order; once all three are cached (truthy), a further
enterprise access fetches nothing, so each is fetched at most once per
process; accessing preattack or mobile fetches only that framework's own
bundle. -/
theorem C6_enterprise_loads_supplementary (gd gd' : GetData) (self self' : AttckInstance)
    (n n' : Nat) (ve vg vn vp vm : PyVal)
    (hve : ve.truthy = true) (hvg : vg.truthy = true) (hvn : vn.truthy = true)
    (he : gd DataType.enterprise false = Except.ok ve)
    (hg : gd DataType.generated_data false = Except.ok vg)
    (hn : gd DataType.nist_data false = Except.ok vn)
    (hp : gd DataType.preattck false = Except.ok vp)
    (hm : gd DataType.mobile false = Except.ok vm) :
    (enterpriseProp gd self ⟨emptyState, n⟩).calls
        = [(DataType.enterprise, false), (DataType.generated_data, false),
           (DataType.nist_data, false)]
    ∧ (enterpriseProp gd' self' ⟨(enterpriseProp gd self ⟨emptyState, n⟩).state.cls, n'⟩).calls = []
    ∧ (preattackProp gd self ⟨emptyState, n⟩).calls = [(DataType.preattck, false)]
    ∧ (mobileProp gd self ⟨emptyState, n⟩).calls = [(DataType.mobile, false)] := by
  have h1 := enterpriseProp_first gd self n ve vg vn he hg hn
  refine ⟨?_, ?_, ?_, ?_⟩
  · rw [h1]
  · rw [h1, enterpriseProp_cached gd' self' ⟨⟨ve, PyVal.none, PyVal.none, vg, vn⟩, n'⟩ hve hvg hvn]
  · rw [preattackProp_first gd self n vp hp]
  · rw [mobileProp_first gd self n vm hm]

/-- Witness for C6 at a concrete Dataset Cache. -/
theorem C6_enterprise_loads_supplementary_witness :
    (enterpriseProp cGet ⟨true⟩ ⟨emptyState, 0⟩).calls
        = [(DataType.enterprise, false), (DataType.generated_data, false),
           (DataType.nist_data, false)]
    ∧ (enterpriseProp cGetB ⟨true⟩ ⟨(enterpriseProp cGet ⟨true⟩ ⟨emptyState, 0⟩).state.cls, 2⟩).calls = []
    ∧ (preattackProp cGet ⟨true⟩ ⟨emptyState, 0⟩).calls = [(DataType.preattck, false)]
    ∧ (mobileProp cGet ⟨true⟩ ⟨emptyState, 0⟩).calls = [(DataType.mobile, false)] := by
  have h := C6_enterprise_loads_supplementary cGet cGetB ⟨true⟩ ⟨true⟩ 0 2
    bundleA bundleA bundleA bundleA bundleA rfl rfl rfl rfl rfl rfl rfl rfl
  exact h

/-- C9: the cache guard in __load_data tests truthiness, not presence:
a falsy get_data result is assigned to the slot but the next access of
that framework's property invokes get_data again; only a truthy result
makes later loads no-ops.  Shown for each framework type (for the
enterprise branch the two supplementary slots are held truthy so that
the enterprise bundle slot is isolated). -/
theorem C9_truthiness_guard (gd gd2 : GetData) (st : AttckClassState) (v : PyVal)
    (hv : v.truthy = false) :
    (st.PRE_ATTCK_JSON.truthy = false → gd DataType.preattck false = Except.ok v →
       (load_data gd "preattack" false st).calls = [(DataType.preattck, false)]
       ∧ (load_data gd "preattack" false st).state.PRE_ATTCK_JSON = v
       ∧ (load_data gd2 "preattack" false (load_data gd "preattack" false st).state).calls
           = [(DataType.preattck, false)])
    ∧ (st.MOBILE_ATTCK_JSON.truthy = false → gd DataType.mobile false = Except.ok v →
       (load_data gd "mobile" false st).calls = [(DataType.mobile, false)]
       ∧ (load_data gd "mobile" false st).state.MOBILE_ATTCK_JSON = v
       ∧ (load_data gd2 "mobile" false (load_data gd "mobile" false st).state).calls
           = [(DataType.mobile, false)])
    ∧ (st.ENTERPRISE_ATTCK_JSON.truthy = false →
       st.ENTERPRISE_GENERATED_DATA_JSON.truthy = true →
       st.ENTERPRISE_NIST_DATA_JSON.truthy = true →
       gd DataType.enterprise false = Except.ok v →
       (load_data gd "enterprise" false st).calls = [(DataType.enterprise, false)]
       ∧ (load_data gd "enterprise" false st).state.ENTERPRISE_ATTCK_JSON = v
       ∧ (load_data gd2 "enterprise" false (load_data gd "enterprise" false st).state).calls
           = [(DataType.enterprise, false)])
    ∧ (∀ (gd3 : GetData) (w : PyVal), w.truthy = true →
       st.PRE_ATTCK_JSON.truthy = false → gd3 DataType.preattck false = Except.ok w →
       load_data gd2 "preattack" false (load_data gd3 "preattack" false st).state
         = ⟨(load_data gd3 "preattack" false st).state, [], Option.none⟩)
    ∧ (∀ (gd3 : GetData) (w : PyVal), w.truthy = true →
       st.MOBILE_ATTCK_JSON.truthy = false → gd3 DataType.mobile false = Except.ok w →
       load_data gd2 "mobile" false (load_data gd3 "mobile" false st).state
         = ⟨(load_data gd3 "mobile" false st).state, [], Option.none⟩)
    ∧ (∀ (gd3 : GetData) (w : PyVal), w.truthy = true →
       st.ENTERPRISE_ATTCK_JSON.truthy = false →
       st.ENTERPRISE_GENERATED_DATA_JSON.truthy = true →
       st.ENTERPRISE_NIST_DATA_JSON.truthy = true →
       gd3 DataType.enterprise false = Except.ok w →
       load_data gd2 "enterprise" false (load_data gd3 "enterprise" false st).state
         = ⟨(load_data gd3 "enterprise" false st).state, [], Option.none⟩) := by
  refine ⟨?_, ?_, ?_, ?_, ?_, ?_⟩
  · intro h0 hfetch
    rw [load_data_preattack_first gd st v h0 hfetch]
    refine ⟨rfl, rfl, ?_⟩
    exact load_data_preattack_calls gd2 false { st with PRE_ATTCK_JSON := v } hv
  · intro h0 hfetch
    rw [load_data_mobile_first gd st v h0 hfetch]
    refine ⟨rfl, rfl, ?_⟩
    exact load_data_mobile_calls gd2 false { st with MOBILE_ATTCK_JSON := v } hv
  · intro h0 hG hN hfetch
    rw [load_data_enterprise_refetch gd st v h0 hG hN hfetch]
    refine ⟨rfl, rfl, ?_⟩
    exact load_data_enterprise_calls gd2 false { st with ENTERPRISE_ATTCK_JSON := v } hv hG hN
  · intro gd3 w hw h0 hfetch
    rw [load_data_preattack_first gd3 st w h0 hfetch]
    exact load_data_preattack_cached gd2 false { st with PRE_ATTCK_JSON := w } hw
  · intro gd3 w hw h0 hfetch
    rw [load_data_mobile_first gd3 st w h0 hfetch]
    exact load_data_mobile_cached gd2 false { st with MOBILE_ATTCK_JSON := w } hw
  · intro gd3 w hw h0 hG hN hfetch
    rw [load_data_enterprise_refetch gd3 st w h0 hG hN hfetch]
    exact load_data_enterprise_cached gd2 false { st with ENTERPRISE_ATTCK_JSON := w } hw hG hN

/-- Witness for C9: a Dataset Cache returning the empty dict leaves the
slot falsy, so a second access fetches again; a truthy result makes the
second access a no-op. -/
theorem C9_truthiness_guard_witness :
    ((load_data cGetEmpty "preattack" false emptyState).calls = [(DataType.preattck, false)]
      ∧ (load_data cGetEmpty "preattack" false emptyState).state.PRE_ATTCK_JSON = PyVal.dict []
      ∧ (load_data cGet "preattack" false
            (load_data cGetEmpty "preattack" false emptyState).state).calls
          = [(DataType.preattck, false)])
    ∧ load_data cGet "preattack" false (load_data cGet "preattack" false emptyState).state
        = ⟨(load_data cGet "preattack" false emptyState).state, [], Option.none⟩ := by
  have h := C9_truthiness_guard cGetEmpty cGet emptyState (PyVal.dict []) rfl
  exact ⟨h.1 rfl rfl, h.2.2.2.1 cGet bundleA rfl rfl rfl⟩

/-- C3: if obtaining one framework's dataset raises (the error
propagates out of __load_data, hence out of the property access or out
of update), the process-wide cache slots of the other frameworks are
untouched; for update, every already-loaded (truthy) slot is preserved,
so already-loaded frameworks remain accessible afterwards. -/
theorem C3_error_leaves_other_slots (gd : GetData) (force : Bool) (st : AttckClassState) :
    ((load_data gd "preattack" force st).error = some () →
       (load_data gd "preattack" force st).state.ENTERPRISE_ATTCK_JSON = st.ENTERPRISE_ATTCK_JSON
       ∧ (load_data gd "preattack" force st).state.MOBILE_ATTCK_JSON = st.MOBILE_ATTCK_JSON
       ∧ (load_data gd "preattack" force st).state.ENTERPRISE_GENERATED_DATA_JSON
           = st.ENTERPRISE_GENERATED_DATA_JSON
       ∧ (load_data gd "preattack" force st).state.ENTERPRISE_NIST_DATA_JSON
           = st.ENTERPRISE_NIST_DATA_JSON)
    ∧ ((load_data gd "mobile" force st).error = some () →
       (load_data gd "mobile" force st).state.ENTERPRISE_ATTCK_JSON = st.ENTERPRISE_ATTCK_JSON
       ∧ (load_data gd "mobile" force st).state.PRE_ATTCK_JSON = st.PRE_ATTCK_JSON
       ∧ (load_data gd "mobile" force st).state.ENTERPRISE_GENERATED_DATA_JSON
           = st.ENTERPRISE_GENERATED_DATA_JSON
       ∧ (load_data gd "mobile" force st).state.ENTERPRISE_NIST_DATA_JSON
           = st.ENTERPRISE_NIST_DATA_JSON)
    ∧ ((load_data gd "enterprise" force st).error = some () →
       (load_data gd "enterprise" force st).state.PRE_ATTCK_JSON = st.PRE_ATTCK_JSON
       ∧ (load_data gd "enterprise" force st).state.MOBILE_ATTCK_JSON = st.MOBILE_ATTCK_JSON)
    ∧ (∀ (e p m : Bool), (update gd e p m st).error = some () →
       (st.PRE_ATTCK_JSON.truthy = true →
          (update gd e p m st).state.PRE_ATTCK_JSON = st.PRE_ATTCK_JSON)
       ∧ (st.MOBILE_ATTCK_JSON.truthy = true →
          (update gd e p m st).state.MOBILE_ATTCK_JSON = st.MOBILE_ATTCK_JSON)
       ∧ (st.ENTERPRISE_ATTCK_JSON.truthy = true →
          (update gd e p m st).state.ENTERPRISE_ATTCK_JSON = st.ENTERPRISE_ATTCK_JSON)) := by
  refine ⟨?_, ?_, ?_, ?_⟩
  · intro _
    rw [load_data_pre_eq]
    exact ⟨fetchIfEmpty_other_frame gd force DataType.preattck Slot.preJson
             Slot.enterpriseJson ⟨st, [], Option.none⟩ (by decide),
           fetchIfEmpty_other_frame gd force DataType.preattck Slot.preJson
             Slot.mobileJson ⟨st, [], Option.none⟩ (by decide),
           fetchIfEmpty_other_frame gd force DataType.preattck Slot.preJson
             Slot.generatedJson ⟨st, [], Option.none⟩ (by decide),
           fetchIfEmpty_other_frame gd force DataType.preattck Slot.preJson
             Slot.nistJson ⟨st, [], Option.none⟩ (by decide)⟩
  · intro _
    rw [load_data_mobile_eq]
    exact ⟨fetchIfEmpty_other_frame gd force DataType.mobile Slot.mobileJson
             Slot.enterpriseJson ⟨st, [], Option.none⟩ (by decide),
           fetchIfEmpty_other_frame gd force DataType.mobile Slot.mobileJson
             Slot.preJson ⟨st, [], Option.none⟩ (by decide),
           fetchIfEmpty_other_frame gd force DataType.mobile Slot.mobileJson
             Slot.generatedJson ⟨st, [], Option.none⟩ (by decide),
           fetchIfEmpty_other_frame gd force DataType.mobile Slot.mobileJson
             Slot.nistJson ⟨st, [], Option.none⟩ (by decide)⟩
  · intro _
    rw [load_data_ent_eq]
    constructor
    · show getSlot _ Slot.preJson = getSlot st Slot.preJson
      rw [fetchIfEmpty_other_frame gd force DataType.nist_data Slot.nistJson
            Slot.preJson _ (by decide),
          fetchIfEmpty_other_frame gd force DataType.generated_data Slot.generatedJson
            Slot.preJson _ (by decide),
          fetchIfEmpty_other_frame gd force DataType.enterprise Slot.enterpriseJson
            Slot.preJson _ (by decide)]
    · show getSlot _ Slot.mobileJson = getSlot st Slot.mobileJson
      rw [fetchIfEmpty_other_frame gd force DataType.nist_data Slot.nistJson
            Slot.mobileJson _ (by decide),
          fetchIfEmpty_other_frame gd force DataType.generated_data Slot.generatedJson
            Slot.mobileJson _ (by decide),
          fetchIfEmpty_other_frame gd force DataType.enterprise Slot.enterpriseJson
            Slot.mobileJson _ (by decide)]
  · intro e p m _
    exact ⟨fun ht => update_truthy_frame gd e p m st Slot.preJson ht,
           fun ht => update_truthy_frame gd e p m st Slot.mobileJson ht,
           fun ht => update_truthy_frame gd e p m st Slot.enterpriseJson ht⟩

/-- Witness for C3: with a failing Dataset Cache and only the PRE-ATT&CK
slot loaded, a preattack load raises yet the other slots are unchanged,
and an update that raises while fetching mobile leaves the loaded
PRE-ATT&CK slot intact. -/
theorem C3_error_leaves_other_slots_witness :
    (load_data cGetFail "preattack" false entOnlyState).error = some ()
    ∧ (load_data cGetFail "preattack" false entOnlyState).state.ENTERPRISE_ATTCK_JSON
        = entOnlyState.ENTERPRISE_ATTCK_JSON
    ∧ (update cGetFail false false true mixedState).error = some ()
    ∧ (update cGetFail false false true mixedState).state.PRE_ATTCK_JSON
        = mixedState.PRE_ATTCK_JSON := by
  refine ⟨by decide, ?_, by decide, ?_⟩
  · exact ((C3_error_leaves_other_slots cGetFail false entOnlyState).1 (by decide)).1
  · exact (((C3_error_leaves_other_slots cGetFail false mixedState).2.2.2
      false false true (by decide)).1 (by decide))

/-- C4: a framework facade holds the raw dataset value passed to its
constructor, namely the value the process-wide slot has at access time:
a facade obtained at a state ps1 is backed by ps1's slot value, and a
facade obtained after the slot was replaced (state ps2) is backed by the
new value; being plain values, earlier facades are unaffected by the
replacement. -/
theorem C4_snapshot_isolation (gd1 gd2 : GetData) (self1 self2 : AttckInstance)
    (ps1 ps2 : PyState)
    (h1E : ps1.cls.ENTERPRISE_ATTCK_JSON.truthy = true)
    (h1G : ps1.cls.ENTERPRISE_GENERATED_DATA_JSON.truthy = true)
    (h1N : ps1.cls.ENTERPRISE_NIST_DATA_JSON.truthy = true)
    (h1P : ps1.cls.PRE_ATTCK_JSON.truthy = true)
    (h1M : ps1.cls.MOBILE_ATTCK_JSON.truthy = true)
    (h2E : ps2.cls.ENTERPRISE_ATTCK_JSON.truthy = true)
    (h2G : ps2.cls.ENTERPRISE_GENERATED_DATA_JSON.truthy = true)
    (h2N : ps2.cls.ENTERPRISE_NIST_DATA_JSON.truthy = true)
    (h2P : ps2.cls.PRE_ATTCK_JSON.truthy = true)
    (h2M : ps2.cls.MOBILE_ATTCK_JSON.truthy = true) :
    (enterpriseProp gd1 self1 ps1).facade
        = some ⟨ps1.nextOid, ps1.cls.ENTERPRISE_ATTCK_JSON, self1.nested_subtechniques⟩
    ∧ (enterpriseProp gd2 self2 ps2).facade
        = some ⟨ps2.nextOid, ps2.cls.ENTERPRISE_ATTCK_JSON, self2.nested_subtechniques⟩
    ∧ (preattackProp gd1 self1 ps1).facade = some ⟨ps1.nextOid, ps1.cls.PRE_ATTCK_JSON⟩
    ∧ (preattackProp gd2 self2 ps2).facade = some ⟨ps2.nextOid, ps2.cls.PRE_ATTCK_JSON⟩
    ∧ (mobileProp gd1 self1 ps1).facade = some ⟨ps1.nextOid, ps1.cls.MOBILE_ATTCK_JSON⟩
    ∧ (mobileProp gd2 self2 ps2).facade = some ⟨ps2.nextOid, ps2.cls.MOBILE_ATTCK_JSON⟩ := by
  refine ⟨?_, ?_, ?_, ?_, ?_, ?_⟩
  · rw [enterpriseProp_cached gd1 self1 ps1 h1E h1G h1N]
  · rw [enterpriseProp_cached gd2 self2 ps2 h2E h2G h2N]
  · rw [preattackProp_cached gd1 self1 ps1 h1P]
  · rw [preattackProp_cached gd2 self2 ps2 h2P]
  · rw [mobileProp_cached gd1 self1 ps1 h1M]
  · rw [mobileProp_cached gd2 self2 ps2 h2M]

/-- Witness for C4: before the slots are replaced the facades report
bundleA; at a state whose slots were replaced with bundleB, freshly
obtained facades report bundleB. -/
theorem C4_snapshot_isolation_witness :
    (enterpriseProp cGet ⟨true⟩ ⟨fullState, 0⟩).facade = some ⟨0, bundleA, true⟩
    ∧ (enterpriseProp cGet ⟨true⟩ ⟨fullStateB, 7⟩).facade = some ⟨7, bundleB, true⟩
    ∧ (preattackProp cGet ⟨true⟩ ⟨fullState, 0⟩).facade = some ⟨0, bundleA⟩
    ∧ (preattackProp cGet ⟨true⟩ ⟨fullStateB, 7⟩).facade = some ⟨7, bundleB⟩ := by
  have h := C4_snapshot_isolation cGet cGet ⟨true⟩ ⟨true⟩ ⟨fullState, 0⟩ ⟨fullStateB, 7⟩
    rfl rfl rfl rfl rfl rfl rfl rfl rfl rfl
  exact ⟨h.1, h.2.1, h.2.2.1, h.2.2.2.1⟩

/-- C5 counterexample: with the bundle already loaded, two consecutive
reads of the enterprise property return two different facade objects
(their object identities differ), refuting "repeated reads return one
facade object". -/
theorem C5_repeated_reads_fresh_counterexample :
    (enterpriseProp cGet ⟨true⟩ ⟨fullState, 0⟩).facade.isSome = true
    ∧ (enterpriseProp cGet ⟨true⟩ ((enterpriseProp cGet ⟨true⟩ ⟨fullState, 0⟩).state)).facade
        ≠ (enterpriseProp cGet ⟨true⟩ ⟨fullState, 0⟩).facade := by decide

/-- C5 amended: after the bundle has been loaded, every read of a
framework property constructs a fresh facade object (a new object
identity), each built from the same cached bundle data; the bundle
itself is loaded only once. -/
theorem C5_fresh_facade_each_access (gd gd' : GetData) (self self' : AttckInstance)
    (ps : PyState)
    (hE : ps.cls.ENTERPRISE_ATTCK_JSON.truthy = true)
    (hG : ps.cls.ENTERPRISE_GENERATED_DATA_JSON.truthy = true)
    (hN : ps.cls.ENTERPRISE_NIST_DATA_JSON.truthy = true)
    (hP : ps.cls.PRE_ATTCK_JSON.truthy = true)
    (hM : ps.cls.MOBILE_ATTCK_JSON.truthy = true) :
    (enterpriseProp gd self ps).facade
        = some ⟨ps.nextOid, ps.cls.ENTERPRISE_ATTCK_JSON, self.nested_subtechniques⟩
    ∧ (enterpriseProp gd' self' ((enterpriseProp gd self ps).state)).facade
        = some ⟨ps.nextOid + 1, ps.cls.ENTERPRISE_ATTCK_JSON, self'.nested_subtechniques⟩
    ∧ (enterpriseProp gd self ps).facade
        ≠ (enterpriseProp gd self ((enterpriseProp gd self ps).state)).facade
    ∧ (enterpriseProp gd self ps).calls = []
    ∧ (preattackProp gd self ps).facade = some ⟨ps.nextOid, ps.cls.PRE_ATTCK_JSON⟩
    ∧ (preattackProp gd' self' ((preattackProp gd self ps).state)).facade
        = some ⟨ps.nextOid + 1, ps.cls.PRE_ATTCK_JSON⟩
    ∧ (mobileProp gd self ps).facade = some ⟨ps.nextOid, ps.cls.MOBILE_ATTCK_JSON⟩
    ∧ (mobileProp gd' self' ((mobileProp gd self ps).state)).facade
        = some ⟨ps.nextOid + 1, ps.cls.MOBILE_ATTCK_JSON⟩ := by
  have e1 := enterpriseProp_cached gd self ps hE hG hN
  have e2 := enterpriseProp_cached gd' self' ⟨ps.cls, ps.nextOid + 1⟩ hE hG hN
  have e3 := enterpriseProp_cached gd self ⟨ps.cls, ps.nextOid + 1⟩ hE hG hN
  have p1 := preattackProp_cached gd self ps hP
  have p2 := preattackProp_cached gd' self' ⟨ps.cls, ps.nextOid + 1⟩ hP
  have m1 := mobileProp_cached gd self ps hM
  have m2 := mobileProp_cached gd' self' ⟨ps.cls, ps.nextOid + 1⟩ hM
  refine ⟨?_, ?_, ?_, ?_, ?_, ?_, ?_, ?_⟩
  · rw [e1]
  · simp only [e1]
    rw [e2]
  · simp only [e1, e3]
    intro hc
    simp only [Option.some.injEq, Enterprise.mk.injEq] at hc
    exact absurd hc.1 (by omega)
  · rw [e1]
  · rw [p1]
  · simp only [p1]
    rw [p2]
  · rw [m1]
  · simp only [m1]
    rw [m2]

/-- Witness for C5's amended statement at a concrete loaded state. -/
theorem C5_fresh_facade_each_access_witness :
    (enterpriseProp cGet ⟨true⟩ ⟨fullState, 0⟩).facade = some ⟨0, bundleA, true⟩
    ∧ (enterpriseProp cGet ⟨true⟩ ((enterpriseProp cGet ⟨true⟩ ⟨fullState, 0⟩).state)).facade
        = some ⟨1, bundleA, true⟩ := by
  have h := C5_fresh_facade_each_access cGet cGet ⟨true⟩ ⟨true⟩ ⟨fullState, 0⟩
    rfl rfl rfl rfl rfl
  exact ⟨h.1, h.2.1⟩

lemma getAttr_setAttr_self (m : AttrMap) (k v : String) :
    getAttr (setAttr m k v) k = some v := by
  induction m with
  | nil => simp [setAttr, getAttr]
  | cons hd tl ih =>
      rcases hd with ⟨k', v'⟩
      by_cases hk : k' = k
      · simp [setAttr, getAttr, hk]
      · simp [setAttr, getAttr, hk, ih]

lemma getAttr_setAttr_ne (m : AttrMap) (k k' v : String) (h : k' ≠ k) :
    getAttr (setAttr m k v) k' = getAttr m k' := by
  have h2 : ¬(k = k') := fun he => h he.symm
  induction m with
  | nil => simp [setAttr, getAttr, h2]
  | cons hd tl ih =>
      rcases hd with ⟨k0, v0⟩
      by_cases hk : k0 = k
      · subst hk
        simp [setAttr, getAttr, h2]
      · simp [setAttr, getAttr, hk, ih]

/-- C7 counterexample: the nested_subtechniques flag captured at
construction is passed to the Enterprise facade's constructor but not to
the PreAttck or MobileAttck constructors: two instances differing only
in the flag produce identical preattack and mobile property results,
while their enterprise facades do differ. -/
theorem C7_flag_not_threaded_counterexample :
    preattackProp cGet ⟨true⟩ ⟨fullState, 0⟩ = preattackProp cGet ⟨false⟩ ⟨fullState, 0⟩
    ∧ mobileProp cGet ⟨true⟩ ⟨fullState, 0⟩ = mobileProp cGet ⟨false⟩ ⟨fullState, 0⟩
    ∧ (enterpriseProp cGet ⟨true⟩ ⟨fullState, 0⟩).facade
        ≠ (enterpriseProp cGet ⟨false⟩ ⟨fullState, 0⟩).facade :=
  ⟨rfl, rfl, by decide⟩

/-- C7 amended: the nested_subtechniques value captured at Attck
construction is immutable instance state — __init__ stores the argument,
every enterprise facade obtained from the instance is constructed with
exactly that value whatever the process state, and the preattack and
mobile properties do not depend on it at all (their facades are
constructed without it). -/
theorem C7_flag_captured_enterprise_only (gd : GetData) (b b' : Bool)
    (cf : Option String) (attrs : AttrMap) :
    (attckInit b cf attrs).inst.nested_subtechniques = b
    ∧ (∀ (ps : PyState) (f : Enterprise),
        (enterpriseProp gd ⟨b⟩ ps).facade = some f → f.nested_subtechniques = b)
    ∧ (∀ ps : PyState, preattackProp gd ⟨b⟩ ps = preattackProp gd ⟨b'⟩ ps)
    ∧ (∀ ps : PyState, mobileProp gd ⟨b⟩ ps = mobileProp gd ⟨b'⟩ ps) := by
  refine ⟨rfl, ?_, fun ps => rfl, fun ps => rfl⟩
  intro ps f hf
  unfold enterpriseProp at hf
  rcases hld : load_data gd "enterprise" false ps.cls with ⟨st', cs, err⟩
  rw [hld] at hf
  cases err with
  | some e => exact absurd hf (by simp)
  | none =>
      simp only [Option.some.injEq] at hf
      rw [← hf]

/-- Witness for C7's amended statement at a concrete state. -/
theorem C7_flag_captured_enterprise_only_witness :
    (attckInit false (some "conf.yml") []).inst.nested_subtechniques = false
    ∧ preattackProp cGet ⟨true⟩ ⟨fullState, 3⟩ = preattackProp cGet ⟨false⟩ ⟨fullState, 3⟩ := by
  have h := C7_flag_captured_enterprise_only cGet false true (some "conf.yml") []
  exact ⟨h.1, (C7_flag_captured_enterprise_only cGet true false (some "conf.yml") []).2.2.1
    ⟨fullState, 3⟩⟩

/-- C10 counterexample: the claim says any non-None config_file_path is
assigned; but __init__ guards the assignment with Python truthiness
(`if config_file_path:`), so the non-None empty string performs no
assignment at all: _Attck__CONFIG_FILE remains unbound and the attribute
dictionary is unchanged. -/
theorem C10_empty_path_no_assignment :
    getAttr (attckInit true (some "") [("_Configuration__CONFIG_FILE", "orig.yml")]).configAttrs
        "_Attck__CONFIG_FILE" = Option.none
    ∧ (attckInit true (some "") [("_Configuration__CONFIG_FILE", "orig.yml")]).configAttrs
        = [("_Configuration__CONFIG_FILE", "orig.yml")] := by decide

/-- C10 amended: passing a truthy (non-None, non-empty) config_file_path
assigns the name-mangled attribute _Attck__CONFIG_FILE on the
Configuration class, and for every config_file_path the binding of
_Configuration__CONFIG_FILE (the mangled form of an attribute
Configuration itself would declare as __CONFIG_FILE) is left
unchanged. -/
theorem C10_mangled_assignment (b : Bool) (p : String) (hp : p ≠ "") (attrs : AttrMap) :
    mangle "Attck" "__CONFIG_FILE" = "_Attck__CONFIG_FILE"
    ∧ getAttr (attckInit b (some p) attrs).configAttrs "_Attck__CONFIG_FILE" = some p
    ∧ (∀ cf : Option String,
        getAttr (attckInit b cf attrs).configAttrs "_Configuration__CONFIG_FILE"
          = getAttr attrs "_Configuration__CONFIG_FILE") := by
  have hmangle : mangle "Attck" "__CONFIG_FILE" = "_Attck__CONFIG_FILE" := by decide
  have ht : strOptTruthy (some p) = true := by
    rcases p with ⟨l⟩
    cases l with
    | nil => exact absurd rfl hp
    | cons c cs => rfl
  refine ⟨hmangle, ?_, ?_⟩
  · show getAttr (if strOptTruthy (some p) then _ else attrs) "_Attck__CONFIG_FILE" = some p
    rw [ht, if_pos rfl, hmangle]
    exact getAttr_setAttr_self attrs "_Attck__CONFIG_FILE" p
  · intro cf
    show getAttr (if strOptTruthy cf then _ else attrs) "_Configuration__CONFIG_FILE"
      = getAttr attrs "_Configuration__CONFIG_FILE"
    by_cases hc : strOptTruthy cf = true
    · rw [hc, if_pos rfl, hmangle]
      exact getAttr_setAttr_ne attrs "_Attck__CONFIG_FILE" "_Configuration__CONFIG_FILE" _
        (by decide)
    · rw [if_neg (by simpa using hc)]

/-- Witness for C10's amended statement at concrete strings. -/
theorem C10_mangled_assignment_witness :
    getAttr (attckInit true (some "conf.yml")
        [("_Configuration__CONFIG_FILE", "orig.yml")]).configAttrs
      "_Attck__CONFIG_FILE" = some "conf.yml"
    ∧ getAttr (attckInit true (some "conf.yml")
        [("_Configuration__CONFIG_FILE", "orig.yml")]).configAttrs
      "_Configuration__CONFIG_FILE" = some "orig.yml" := by
  have h := C10_mangled_assignment true "conf.yml" (by decide)
    [("_Configuration__CONFIG_FILE", "orig.yml")]
  refine ⟨h.2.1, ?_⟩
  rw [h.2.2 (some "conf.yml")]
  decide

/-- C8: resolving any relationship accessor for an entity id that is not
present in the bundle returns the empty sequence; resolve is a total
function, so no error is possible.  The Bundle Index skips relationship
records whose refs are dangling, so no retained edge can mention the
absent id. -/
theorem C8_absent_id_resolves_empty (bundle : List BundleObject)
    (entity_id target_type relationship_type : String) (dir : Direction)
    (h : ∀ e ∈ bundleEntities bundle, e.2 ≠ entity_id) :
    resolve (buildIndex bundle) entity_id target_type relationship_type dir = [] := by
  have hrels : ∀ r ∈ (buildIndex bundle).rels, ¬(edgeEnd dir r = entity_id) := by
    intro r hr
    have hcond := List.of_mem_filter hr
    rw [Bool.and_eq_true] at hcond
    have hsrc := hcond.1
    have htgt := hcond.2
    rw [entityIds, List.any_eq_true] at hsrc htgt
    cases dir with
    | sourceToTarget =>
        intro he
        rcases hsrc with ⟨e, hemem, heq⟩
        rw [decide_eq_true_eq] at heq
        exact h e hemem (heq.trans he)
    | targetToSource =>
        intro he
        rcases htgt with ⟨e, hemem, heq⟩
        rw [decide_eq_true_eq] at heq
        exact h e hemem (heq.trans he)
  have hempty : (buildIndex bundle).rels.filter (fun r => edgeEnd dir r = entity_id) = [] := by
    rw [List.filter_eq_nil_iff]
    intro r hr
    simp only [decide_eq_true_eq]
    exact hrels r hr
  simp only [resolve, hempty, List.filter_nil, List.map_nil]
  rfl

/-- Witness for C8: an intrusion-set id absent from the sample bundle
resolves to the empty sequence. -/
theorem C8_absent_id_resolves_empty_witness :
    resolve (buildIndex demoBundle) "intrusion-set--absent" "attack-pattern" "uses"
      Direction.sourceToTarget = [] :=
  C8_absent_id_resolves_empty demoBundle "intrusion-set--absent" "attack-pattern" "uses"
    Direction.sourceToTarget (by decide)
